import Mathlib

/-
  Verification of the assessment-and-orchestration pipeline of the
  vision-language infrastructure-inspection backend.

  The definitions below are a shallow embedding of the Python sources:
    - backend/app/models/severity.py   (SeverityAssessor)
    - backend/app/models/vlm.py        (VisionLanguageModel.generate_simple_explanation)
    - backend/app/services/inspection.py (InspectionService)
    - backend/app/schemas/inspection.py  (response records)

  Numeric values are embedded as exact rationals.  Python code that can raise
  an exception (division by zero, a failing explanation provider) is embedded
  as an Option-valued function: `none` marks exactly the control paths on
  which the source raises, and exception propagation is Option bind.
-/

namespace Inspection

/-- The severity type: the Python Literal type with values "Low", "Medium", "High"
(severity.py line 11 and schemas/inspection.py line 9). -/
inductive SeverityLevel where
  | Low
  | Medium
  | High
  deriving DecidableEq

/-- The string value of a severity literal, as the Python code spells it. -/
def sevStr : SeverityLevel → String
  | SeverityLevel.Low => "Low"
  | SeverityLevel.Medium => "Medium"
  | SeverityLevel.High => "High"

/-- Bounding box: the four-element float list [x1, y1, x2, y2] passed around by
the source (schemas/inspection.py BoundingBox). -/
structure Bbox where
  x1 : ℚ
  y1 : ℚ
  x2 : ℚ
  y2 : ℚ
  deriving DecidableEq

/-- The only data the core reads from a decoded PIL image: image.size,
that is the pixel width and height. -/
structure PILImage where
  width : ℕ
  height : ℕ
  deriving DecidableEq

/-- Python str.lower, for the ASCII strings this code base uses. -/
def pyLower (s : String) : String := s.map Char.toLower

/-- Python str.capitalize: first character upper-cased, the rest lower-cased
(adequate for the ASCII defect-type names used here). -/
def pyCapitalize (s : String) : String :=
  match s.data with
  | [] => ""
  | c :: cs => String.mk (Char.toUpper c :: cs.map Char.toLower)

/-- severity.py, SeverityAssessor._assess_crack (lines 69-103): the crack rule
ladder, an if/elif chain evaluated top-down, first match wins. -/
def _assess_crack (relative_area width height aspect_ratio confidence : ℚ) :
    SeverityLevel × String :=
  let max_dimension := max width height
  if aspect_ratio > 8 ∧ relative_area > 0.05 then
    (SeverityLevel.High, "Long crack with significant extent, potential structural concern")
  else if relative_area > 0.15 then
    (SeverityLevel.High, "Large crack covering substantial area, requires immediate attention")
  else if max_dimension > 300 ∧ aspect_ratio > 5 then
    (SeverityLevel.High, "Extensive linear crack, may indicate structural movement")
  else if relative_area > 0.03 ∨ (aspect_ratio > 4 ∧ max_dimension > 150) then
    (SeverityLevel.Medium, "Moderate crack requiring monitoring and potential repair")
  else if confidence > 0.8 ∧ relative_area > 0.01 then
    (SeverityLevel.Medium, "Clearly visible crack, should be assessed by engineer")
  else
    (SeverityLevel.Low, "Small localized crack, likely superficial but should be documented")

/-- The crack ladder from rule 2 on: exactly the elif chain _assess_crack
evaluates once rule 1 has failed to match. -/
def _assess_crack_rest (relative_area width height aspect_ratio confidence : ℚ) :
    SeverityLevel × String :=
  let max_dimension := max width height
  if relative_area > 0.15 then
    (SeverityLevel.High, "Large crack covering substantial area, requires immediate attention")
  else if max_dimension > 300 ∧ aspect_ratio > 5 then
    (SeverityLevel.High, "Extensive linear crack, may indicate structural movement")
  else if relative_area > 0.03 ∨ (aspect_ratio > 4 ∧ max_dimension > 150) then
    (SeverityLevel.Medium, "Moderate crack requiring monitoring and potential repair")
  else if confidence > 0.8 ∧ relative_area > 0.01 then
    (SeverityLevel.Medium, "Clearly visible crack, should be assessed by engineer")
  else
    (SeverityLevel.Low, "Small localized crack, likely superficial but should be documented")

/-- severity.py, SeverityAssessor._assess_corrosion (lines 105-133). -/
def _assess_corrosion (relative_area area confidence : ℚ) : SeverityLevel × String :=
  if relative_area > 0.12 then
    (SeverityLevel.High, "Extensive corrosion with likely material degradation, immediate assessment needed")
  else if area > 50000 ∧ confidence > 0.7 then
    (SeverityLevel.High, "Large corroded area indicating advanced deterioration")
  else if relative_area > 0.04 then
    (SeverityLevel.Medium, "Moderate corrosion present, risk of progression if untreated")
  else if area > 15000 then
    (SeverityLevel.Medium, "Significant corroded area requiring remediation planning")
  else
    (SeverityLevel.Low, "Surface-level corrosion detected, monitor for progression")

/-- severity.py, SeverityAssessor._assess_spalling (lines 135-163). -/
def _assess_spalling (relative_area area confidence : ℚ) : SeverityLevel × String :=
  if relative_area > 0.10 then
    (SeverityLevel.High, "Extensive spalling, possible reinforcement exposure, structural integrity at risk")
  else if area > 40000 ∧ confidence > 0.75 then
    (SeverityLevel.High, "Large spalled region indicating concrete deterioration, urgent repair required")
  else if relative_area > 0.03 then
    (SeverityLevel.Medium, "Moderate spalling with material loss, repair recommended")
  else if area > 10000 then
    (SeverityLevel.Medium, "Significant surface spalling, assess for underlying damage")
  else
    (SeverityLevel.Low, "Minor surface spalling detected, document and monitor")

/-- severity.py, SeverityAssessor.assess_severity (lines 24-67).

The source computes, in this order,
  relative_area = area / img_area           (line 54)
  aspect_ratio  = max(w,h) / min(w,h)       (line 55)
with no guard on either divisor: Python raises ZeroDivisionError when
img_area = 0, and otherwise when min(w,h) = 0.  Those two raise sites are
embedded as the two `none` branches, in source order.  Only afterwards does
the source dispatch on the lower-cased defect type. -/
def assess_severity (defect_type : String) (bbox : Bbox) (image : PILImage)
    (confidence : ℚ) : Option (SeverityLevel × String) :=
  let width := bbox.x2 - bbox.x1
  let height := bbox.y2 - bbox.y1
  let area := width * height
  let img_area : ℚ := (image.width : ℚ) * (image.height : ℚ)
  if img_area = 0 then none
  else
    let relative_area := area / img_area
    if min width height = 0 then none
    else
      let aspect_ratio := max width height / min width height
      let defect_type_lower := pyLower defect_type
      if defect_type_lower = "crack" then
        some (_assess_crack relative_area width height aspect_ratio confidence)
      else if defect_type_lower = "corrosion" then
        some (_assess_corrosion relative_area area confidence)
      else if defect_type_lower = "spalling" then
        some (_assess_spalling relative_area area confidence)
      else
        some (SeverityLevel.Medium, "Unknown defect type, defaulting to Medium severity")

/-- C2 (amended, general form): assess_severity has no guard on degenerate
images.  Whenever imageWidth * imageHeight = 0 the computation of
relative_area divides by zero, so the call raises (embedded: returns none)
instead of returning any (severity, reasoning) pair. -/
theorem assess_severity_zero_image_area_raises
    (defect_type : String) (bbox : Bbox) (image : PILImage) (confidence : ℚ)
    (h : image.width * image.height = 0) :
    assess_severity defect_type bbox image confidence = none := by
  have h0 : ((image.width : ℚ)) * ((image.height : ℚ)) = 0 := by
    have hc := congrArg (fun n : ℕ => (n : ℚ)) h
    push_cast at hc
    simpa using hc
  simp only [assess_severity]
  rw [if_pos h0]

/-- C2 counterexample: for the degenerate 0x0 image the claim says the call
returns severity Low (or Unknown) with a reasoning string; the code instead
hits the division by zero at relative_area and raises (returns none). -/
theorem assess_severity_zero_image_counterexample :
    assess_severity "crack" ⟨0, 0, 10, 10⟩ ⟨0, 0⟩ 0.9 = none := by
  with_unfolding_all decide

/-- C2 witness: the amended theorem applied at a concrete degenerate image. -/
theorem assess_severity_zero_image_area_raises_witness :
    assess_severity "corrosion" ⟨0, 0, 5, 5⟩ ⟨0, 480⟩ (1/2) = none :=
  assess_severity_zero_image_area_raises "corrosion" ⟨0, 0, 5, 5⟩ ⟨0, 480⟩ (1/2) (by decide)

/-- C3 (amended, general form): the source computes
aspect_ratio = max(width, height) / min(width, height) with no epsilon guard,
so on every box of zero width or zero height (and a non-degenerate image,
which the source checks first by dividing by img_area) the call raises a
division-by-zero error (embedded: returns none) instead of returning a
(severity, reasoning) pair. -/
theorem assess_severity_zero_min_dimension_raises
    (defect_type : String) (bbox : Bbox) (image : PILImage) (confidence : ℚ)
    (hw : image.width ≠ 0) (hh : image.height ≠ 0)
    (hmin : min (bbox.x2 - bbox.x1) (bbox.y2 - bbox.y1) = 0) :
    assess_severity defect_type bbox image confidence = none := by
  have h0 : ((image.width : ℚ)) * ((image.height : ℚ)) ≠ 0 :=
    mul_ne_zero (Nat.cast_ne_zero.mpr hw) (Nat.cast_ne_zero.mpr hh)
  simp only [assess_severity]
  rw [if_neg h0, if_pos hmin]

/-- C3 counterexample: a zero-height box in a 100x100 image.  The claim says
epsilon guards the division and a pair is always returned; the code divides
by min(width, height) = 0 and raises (returns none). -/
theorem assess_severity_zero_height_counterexample :
    assess_severity "crack" ⟨0, 0, 10, 0⟩ ⟨100, 100⟩ 0.9 = none := by
  with_unfolding_all decide

/-- C3 witness: the amended theorem applied at a concrete zero-width box. -/
theorem assess_severity_zero_min_dimension_raises_witness :
    assess_severity "spalling" ⟨5, 5, 5, 50⟩ ⟨200, 100⟩ (3/4) = none :=
  assess_severity_zero_min_dimension_raises "spalling" ⟨5, 5, 5, 50⟩ ⟨200, 100⟩ (3/4)
    (by decide) (by decide) (by with_unfolding_all decide)

/-- C4 (amended): for a crack with box width 400 and height 20 in a 640x480
image with confidence 0.9 (aspect ratio 20, relative area 8000/307200,
max dimension 400), rule 1 and rule 2 of the ladder fail but rule 3
(maxDimension > 300 AND aspectRatio > 5) fires first, so the top-down
first-match evaluation returns High with rule 3's canonical reasoning text,
not Medium via rule 4 as the claim states. -/
theorem assess_severity_crack_400x20_rule3_high :
    (¬ (max (400 : ℚ) 20 / min (400 : ℚ) 20 > 8 ∧ (8000 : ℚ) / 307200 > 0.05)) ∧
    (¬ ((8000 : ℚ) / 307200 > 0.15)) ∧
    (max (400 : ℚ) 20 > 300 ∧ max (400 : ℚ) 20 / min (400 : ℚ) 20 > 5) ∧
    assess_severity "crack" ⟨0, 0, 400, 20⟩ ⟨640, 480⟩ 0.9 =
      some (SeverityLevel.High, "Extensive linear crack, may indicate structural movement") := by
  with_unfolding_all decide

/-- C4 counterexample: at the claim's own input the result is not Medium with
rule 4's canonical reasoning text (it is High via rule 3). -/
theorem assess_severity_crack_400x20_not_medium :
    assess_severity "crack" ⟨0, 0, 400, 20⟩ ⟨640, 480⟩ 0.9 ≠
      some (SeverityLevel.Medium, "Moderate crack requiring monitoring and potential repair") := by
  with_unfolding_all decide

/-- C5: all thresholds are compared strictly; at aspect_ratio = 8 and
relative_area = 0.05 exactly, rule 1 of the crack ladder (strict >) does not
fire and the evaluation falls through to the subsequent rules, i.e. the
result is exactly that of the rule-2-onward ladder. -/
theorem assess_crack_boundary_falls_through
    (relative_area width height aspect_ratio confidence : ℚ)
    (har : aspect_ratio = 8) (hra : relative_area = 0.05) :
    _assess_crack relative_area width height aspect_ratio confidence =
      _assess_crack_rest relative_area width height aspect_ratio confidence := by
  subst har hra
  simp only [_assess_crack, _assess_crack_rest]
  rw [if_neg]
  intro hc
  exact lt_irrefl _ hc.1

/-- C5 witness: the boundary theorem applied at concrete metric values. -/
theorem assess_crack_boundary_falls_through_witness :
    _assess_crack 0.05 8 1 8 (1/2) = _assess_crack_rest 0.05 8 1 8 (1/2) :=
  assess_crack_boundary_falls_through 0.05 8 1 8 (1/2) rfl rfl

/-- C6 (amended, general form): for every defect type whose lower-casing is
none of "crack", "corrosion", "spalling", assess_severity returns Medium with
the unknown-type reasoning string, provided the derived-metric divisions that
the source performs before dispatching on the type do not raise (non-zero
image area and non-zero box min dimension).  The "never raises" part of the
claim fails: the metric computation precedes the type dispatch. -/
theorem assess_severity_unknown_type_medium
    (defect_type : String) (bbox : Bbox) (image : PILImage) (confidence : ℚ)
    (h1 : pyLower defect_type ≠ "crack")
    (h2 : pyLower defect_type ≠ "corrosion")
    (h3 : pyLower defect_type ≠ "spalling")
    (hw : image.width ≠ 0) (hh : image.height ≠ 0)
    (hmin : min (bbox.x2 - bbox.x1) (bbox.y2 - bbox.y1) ≠ 0) :
    assess_severity defect_type bbox image confidence =
      some (SeverityLevel.Medium, "Unknown defect type, defaulting to Medium severity") := by
  have h0 : ((image.width : ℚ)) * ((image.height : ℚ)) ≠ 0 :=
    mul_ne_zero (Nat.cast_ne_zero.mpr hw) (Nat.cast_ne_zero.mpr hh)
  simp only [assess_severity]
  rw [if_neg h0, if_neg hmin, if_neg h1, if_neg h2, if_neg h3]

/-- C6 counterexample: the unknown type "rust_stain" with a zero-width box in
a valid 100x100 image.  The claim says assess_severity never raises for
unknown types; the code computes aspect_ratio before dispatching on the type
and raises a division-by-zero error (returns none), not Medium. -/
theorem assess_severity_rust_stain_raises_counterexample :
    assess_severity "rust_stain" ⟨5, 5, 5, 50⟩ ⟨100, 100⟩ 0.5 = none := by
  with_unfolding_all decide

/-- C6 witness: the amended theorem applied at "rust_stain" with a
well-formed box and image. -/
theorem assess_severity_unknown_type_medium_witness :
    assess_severity "rust_stain" ⟨0, 0, 10, 10⟩ ⟨100, 100⟩ 0.5 =
      some (SeverityLevel.Medium, "Unknown defect type, defaulting to Medium severity") :=
  assess_severity_unknown_type_medium "rust_stain" ⟨0, 0, 10, 10⟩ ⟨100, 100⟩ 0.5
    (by with_unfolding_all decide) (by with_unfolding_all decide)
    (by with_unfolding_all decide) (by decide) (by decide)
    (by with_unfolding_all decide)

/-- The pair of strings an explanation provider returns
(vlm.py returns a dict with keys "explanation" and "recommended_action"). -/
structure ExplanationResult where
  explanation : String
  recommended_action : String
  deriving DecidableEq

/-- vlm.py, VisionLanguageModel.generate_simple_explanation (lines 140-209).

The source builds a literal nested dict keyed by defect type and severity,
then returns explanations[type][severity] when both keys are present and a
generic fallback dict otherwise.  The method reads no attribute of self, so
it is embedded as a plain function of its two string arguments; this is also
why it works on the uninitialized VisionLanguageModel instance that
InspectionService.__init__ creates via __new__ when use_vlm is false. -/
def generate_simple_explanation (defect_type : String) (severity : String) :
    ExplanationResult :=
  let fallback : ExplanationResult :=
    { explanation := severity ++ " severity " ++ defect_type ++
        " detected requiring engineering assessment."
      recommended_action :=
        "Consult with licensed structural engineer for evaluation and repair recommendations." }
  let defect_type_lower := pyLower defect_type
  if defect_type_lower = "crack" then
    if severity = "High" then
      { explanation := "Significant linear discontinuity detected in structural element. The crack extent suggests potential load path disruption or material fatigue. Location and propagation pattern indicate need for immediate structural assessment."
        recommended_action := "Conduct detailed structural evaluation including load capacity analysis. Consider temporary shoring if needed. Implement crack monitoring system and develop repair specifications with licensed structural engineer." }
    else if severity = "Medium" then
      { explanation := "Moderate crack formation observed in structural component. The defect exhibits characteristics of early-stage material degradation or settlement-induced stress. Current extent suggests localized rather than systemic issue."
        recommended_action := "Install crack width monitoring gauges. Perform material testing to determine cause. Schedule repair using appropriate epoxy injection or routing and sealing within next maintenance cycle." }
    else if severity = "Low" then
      { explanation := "Minor surface crack detected. Defect appears superficial with limited propagation. Likely caused by shrinkage, thermal stress, or minor settlement. No immediate structural concern evident."
        recommended_action := "Document crack location and dimensions. Apply surface sealant to prevent moisture ingress. Schedule for re-inspection in 6-12 months to monitor for progression." }
    else fallback
  else if defect_type_lower = "corrosion" then
    if severity = "High" then
      { explanation := "Advanced corrosion detected with evidence of significant material loss. The deterioration pattern suggests prolonged exposure to corrosive environment. Potential for reduced load-bearing capacity and progressive structural degradation."
        recommended_action := "Immediate structural assessment required. Perform material thickness testing and load capacity evaluation. Implement corrosion protection system. Plan for member replacement or structural reinforcement as engineering analysis dictates." }
    else if severity = "Medium" then
      { explanation := "Moderate corrosion identified on structural surface. Observable oxidation with partial material degradation. Current state indicates active corrosion process requiring intervention to prevent acceleration."
        recommended_action := "Remove corrosion products and assess remaining material thickness. Apply protective coating system per SSPC standards. Improve drainage or ventilation to eliminate moisture source. Monitor quarterly for progression." }
    else if severity = "Low" then
      { explanation := "Surface-level corrosion detected with minimal material loss. Early-stage oxidation present, primarily affecting protective coating or superficial material layers. Structural integrity currently maintained."
        recommended_action := "Clean affected area and apply corrosion inhibitor. Restore protective coating system. Address moisture source if identified. Include in routine inspection schedule." }
    else fallback
  else if defect_type_lower = "spalling" then
    if severity = "High" then
      { explanation := "Extensive concrete spalling with visible material loss detected. Defect severity suggests potential reinforcement exposure or advanced deterioration. Pattern indicates freeze-thaw damage, corrosion-induced pressure, or alkali-silica reaction."
        recommended_action := "Urgent engineering assessment required. Remove loose material and inspect for reinforcement corrosion. Perform concrete strength testing. Execute structural repair using compatible materials per ACI 546 guidelines. Address root cause of deterioration." }
    else if severity = "Medium" then
      { explanation := "Moderate spalling observed with measurable concrete delamination. Surface layer failure evident, potentially due to reinforcement corrosion, freeze-thaw cycles, or construction defects. Underlying structure requires verification."
        recommended_action := "Remove delaminated concrete and assess extent of damage. Test for chloride content and carbonation depth. Repair using polymer-modified concrete or appropriate patching material. Implement preventive measures for underlying cause." }
    else if severity = "Low" then
      { explanation := "Minor surface spalling detected affecting concrete cover. Limited material loss observed, likely due to localized impact, minor freeze-thaw action, or finishing issues. Structural reinforcement not compromised."
        recommended_action := "Remove loose material and clean surface. Apply concrete patching compound for affected areas. Seal surface to prevent moisture penetration. Monitor during regular inspections." }
    else fallback
  else fallback

/-- Python round-half-to-even to an integer (the rounding mode of the
built-in round), on exact rationals. -/
def pyRoundHalfEven (x : ℚ) : ℤ :=
  let f : ℤ := ⌊x⌋
  let r : ℚ := x - (f : ℚ)
  if r < 1/2 then f
  else if r > 1/2 then f + 1
  else if f % 2 = 0 then f else f + 1

/-- Python round(x, 3), as used on the confidence in _process_detection. -/
def pyRound3 (x : ℚ) : ℚ := ((pyRoundHalfEven (x * 1000) : ℚ)) / 1000

/-- A raw detection as the detector returns it: the dict
with keys class_name, confidence and bbox (detector.py, detect). -/
structure RawDetection where
  class_name : String
  confidence : ℚ
  bbox : Bbox
  deriving DecidableEq

/-- schemas/inspection.py DefectDetection: one fully processed defect entry.
The schema restricts severity to the literal values Low / Medium / High. -/
structure DefectDetection where
  defect_type : String
  confidence : ℚ
  severity : SeverityLevel
  severity_reasoning : String
  bounding_box : Bbox
  explanation : String
  recommended_action : String
  deriving DecidableEq

/-- schemas/inspection.py InspectionResponse: the terminal report. -/
structure InspectionResponse where
  status : String
  detections : List DefectDetection
  total_defects : ℕ
  summary : String
  deriving DecidableEq

/-- inspection.py, InspectionService._process_detection (lines 107-170).

The explanation provider is a parameter: the source calls either
self.vlm.generate_explanation (model-backed, may raise, e.g. on a model
timeout) or self.vlm.generate_simple_explanation, depending on use_vlm.
A provider raising is embedded as the provider returning none; the source
wraps neither the assess_severity call nor the provider call in try/except,
so a raise propagates out of the method — embedded as Option bind. -/
def _process_detection (explain : String → String → Option ExplanationResult)
    (detection : RawDetection) (image : PILImage) : Option DefectDetection := do
  let defect_type := detection.class_name
  let bbox := detection.bbox
  let confidence := detection.confidence
  let (severity, severity_reasoning) ←
    assess_severity defect_type bbox image confidence
  let out ← explain defect_type (sevStr severity)
  some
    { defect_type := defect_type
      confidence := pyRound3 confidence
      severity := severity
      severity_reasoning := severity_reasoning
      bounding_box := bbox
      explanation := out.explanation
      recommended_action := out.recommended_action }

/-- The use_vlm = false provider of the service: generate_simple_explanation,
which is total (it never raises). -/
def simpleProvider : String → String → Option ExplanationResult :=
  fun defect_type severity => some (generate_simple_explanation defect_type severity)

/-- The per-detection loop of inspect_image (lines 93-95): process each
detection in detector output order, appending each result; a raise in any
iteration propagates (none). -/
def processDetections (explain : String → String → Option ExplanationResult)
    (image : PILImage) : List RawDetection → Option (List DefectDetection)
  | [] => some []
  | detection :: rest => do
      let processed ← _process_detection explain detection image
      let processedRest ← processDetections explain image rest
      some (processed :: processedRest)

/-- The severity tally dict of _generate_summary, which starts at
\x7b"High": 0, "Medium": 0, "Low": 0\x7d and is incremented per detection. -/
structure SevCounts where
  high : ℕ
  medium : ℕ
  low : ℕ
  deriving DecidableEq

/-- One loop iteration of the severity tally. -/
def tallySeverity (counts : SevCounts) : SeverityLevel → SevCounts
  | SeverityLevel.High => { counts with high := counts.high + 1 }
  | SeverityLevel.Medium => { counts with medium := counts.medium + 1 }
  | SeverityLevel.Low => { counts with low := counts.low + 1 }

/-- defect_counts[dtype] = defect_counts.get(dtype, 0) + 1 on an
insertion-ordered dict, embedded as an association list: Python dicts
preserve insertion order, so a new key is appended at the end. -/
def bumpCount : List (String × ℕ) → String → List (String × ℕ)
  | [], key => [(key, 1)]
  | (k, n) :: rest, key =>
      if k = key then (k, n + 1) :: rest else (k, n) :: bumpCount rest key

/-- inspection.py, InspectionService._generate_summary (lines 172-218). -/
def _generate_summary (detections : List DefectDetection) : String :=
  let total := detections.length
  if total = 0 then "Inspection completed. No defects detected."
  else
    let severity_counts :=
      detections.foldl (fun counts d => tallySeverity counts d.severity) ⟨0, 0, 0⟩
    let defect_counts :=
      detections.foldl (fun counts d => bumpCount counts (pyCapitalize d.defect_type)) []
    let part1 := "Inspection completed. " ++ toString total ++ " defect" ++
      (if total > 1 then "s" else "") ++ " detected."
    let defect_list := defect_counts.map
      (fun p => toString p.2 ++ " " ++ p.1 ++ (if p.2 > 1 then "s" else ""))
    let part2 := "Types: " ++ String.intercalate ", " defect_list ++ "."
    let severity_list :=
      (if severity_counts.high > 0
        then [toString severity_counts.high ++ " " ++ "High"] else []) ++
      (if severity_counts.medium > 0
        then [toString severity_counts.medium ++ " " ++ "Medium"] else []) ++
      (if severity_counts.low > 0
        then [toString severity_counts.low ++ " " ++ "Low"] else [])
    let parts := [part1, part2] ++
      (if severity_list.isEmpty then []
        else ["Severity: " ++ String.intercalate ", " severity_list ++ "."]) ++
      (if severity_counts.high > 0
        then ["Immediate engineering assessment recommended for high severity defects."]
        else [])
    String.intercalate " " parts

/-- inspection.py, InspectionService.inspect_image (lines 66-105), after
image decoding and detection: the detector's ordered output list is the
input (Detector is an external collaborator).  An empty list short-circuits
to the zero-defect report; otherwise each detection is processed in order
and an uncaught raise in any _process_detection call aborts the request
(none). -/
def inspect_image (explain : String → String → Option ExplanationResult)
    (image : PILImage) (detections : List RawDetection) :
    Option InspectionResponse :=
  if detections.isEmpty then
    some
      { status := "success"
        detections := []
        total_defects := 0
        summary := "Inspection completed. No defects detected." }
  else do
    let processed_detections ← processDetections explain image detections
    some
      { status := "success"
        detections := processed_detections
        total_defects := processed_detections.length
        summary := _generate_summary processed_detections }

/-- A 640x480 sample image. -/
def sampleImage : PILImage := ⟨640, 480⟩

/-- Sample detection: a long thin crack. -/
def sampleCrack : RawDetection := ⟨"crack", 0.9, ⟨0, 0, 400, 20⟩⟩

/-- Sample detection: a 100x100 corrosion patch. -/
def sampleCorrosion : RawDetection := ⟨"corrosion", 0.8, ⟨0, 0, 100, 100⟩⟩

/-- Sample detection: a 200x200 spalling region. -/
def sampleSpalling : RawDetection := ⟨"spalling", 0.9, ⟨0, 0, 200, 200⟩⟩

/-- An explanation provider that raises exactly on corrosion detections and
behaves like the rule-based provider otherwise: the failure-injection
scenario of the claim (one failing detection out of three). -/
def failingProvider : String → String → Option ExplanationResult :=
  fun defect_type severity =>
    if defect_type = "corrosion" then none
    else some (generate_simple_explanation defect_type severity)

/-- If one detection's processing raises, the whole per-detection loop
raises: Option bind short-circuits exactly as the uncaught Python exception
propagates out of the for loop. -/
theorem processDetections_eq_none_of_mem
    (explain : String → String → Option ExplanationResult) (image : PILImage)
    {d : RawDetection} {detections : List RawDetection}
    (hd : d ∈ detections)
    (hfail : _process_detection explain d image = none) :
    processDetections explain image detections = none := by
  induction detections with
  | nil => exact absurd hd (List.not_mem_nil d)
  | cons x xs ih =>
    rcases List.mem_cons.mp hd with rfl | hmem
    · simp [processDetections, hfail]
    · cases hx : _process_detection explain x image with
      | none => simp [processDetections, hx]
      | some p => simp [processDetections, hx, ih hmem]

/-- C1 (amended): the source wraps no try/except around the explanation
call in _process_detection, so when the ExplanationProvider raises for any
detection the exception propagates and inspect_image produces no report at
all (the API layer then answers 500); there is no per-detection fallback
substitution. -/
theorem inspect_image_explanation_failure_fails_request
    (explain : String → String → Option ExplanationResult) (image : PILImage)
    (detections : List RawDetection)
    (h : ∃ d ∈ detections, _process_detection explain d image = none) :
    inspect_image explain image detections = none := by
  obtain ⟨d, hd, hfail⟩ := h
  cases detections with
  | nil => exact absurd hd (List.not_mem_nil d)
  | cons x xs =>
    simp only [inspect_image, List.isEmpty_cons, Bool.false_eq_true, if_false]
    rw [processDetections_eq_none_of_mem explain image hd hfail]
    rfl

/-- C1 counterexample: the claim's failure-injection scenario.  With three
detections and a provider that raises for exactly the second one, the claim
says a 3-entry report with fallback text for that entry is still returned;
the code instead returns no report (the request fails). -/
theorem inspect_image_one_failure_no_report_counterexample :
    inspect_image failingProvider sampleImage
      [sampleCrack, sampleCorrosion, sampleSpalling] = none := by
  with_unfolding_all decide

/-- C1 witness: the amended theorem applied at a concrete failing input. -/
theorem inspect_image_explanation_failure_fails_request_witness :
    inspect_image failingProvider sampleImage [sampleCorrosion, sampleCrack] = none :=
  inspect_image_explanation_failure_fails_request failingProvider sampleImage
    [sampleCorrosion, sampleCrack]
    ⟨sampleCorrosion, by simp, by with_unfolding_all decide⟩

/-- C7: an empty detection list short-circuits to the fixed zero-defect
report: success status, no detections, total 0, and the fixed summary —
whatever the explanation provider is (it is never invoked; neither is
severity assessment, since the short-circuit precedes the loop). -/
theorem inspect_image_empty_detections (explain : String → String → Option ExplanationResult)
    (image : PILImage) :
    inspect_image explain image [] =
      some
        { status := "success"
          detections := []
          total_defects := 0
          summary := "Inspection completed. No defects detected." } := rfl

/-- C9: whenever inspect_image returns a report (empty and non-empty
detection lists alike), its total_defects field equals the length of its
detections list. -/
theorem inspect_image_total_defects_eq_length
    (explain : String → String → Option ExplanationResult) (image : PILImage)
    (detections : List RawDetection) (r : InspectionResponse)
    (h : inspect_image explain image detections = some r) :
    r.total_defects = r.detections.length := by
  cases detections with
  | nil =>
    simp only [inspect_image, List.isEmpty_nil, if_true] at h
    obtain rfl := Option.some.inj h
    rfl
  | cons x xs =>
    simp only [inspect_image, List.isEmpty_cons, Bool.false_eq_true, if_false] at h
    cases hp : processDetections explain image (x :: xs) with
    | none => rw [hp] at h; exact absurd h (by simp)
    | some ps =>
      rw [hp] at h
      obtain rfl := Option.some.inj h
      rfl

set_option maxRecDepth 8000 in
/-- C9 witness: the invariant theorem applied to the concrete report the
pipeline produces for a single corrosion detection. -/
theorem inspect_image_total_defects_eq_length_witness :
    InspectionResponse.total_defects
        { status := "success"
          detections :=
            [{ defect_type := "corrosion"
               confidence := 0.8
               severity := SeverityLevel.Low
               severity_reasoning := "Surface-level corrosion detected, monitor for progression"
               bounding_box := ⟨0, 0, 100, 100⟩
               explanation := "Surface-level corrosion detected with minimal material loss. Early-stage oxidation present, primarily affecting protective coating or superficial material layers. Structural integrity currently maintained."
               recommended_action := "Clean affected area and apply corrosion inhibitor. Restore protective coating system. Address moisture source if identified. Include in routine inspection schedule." }]
          total_defects := 1
          summary := "Inspection completed. 1 defect detected. Types: 1 Corrosion. Severity: 1 Low." } =
      List.length (InspectionResponse.detections
        { status := "success"
          detections :=
            [{ defect_type := "corrosion"
               confidence := 0.8
               severity := SeverityLevel.Low
               severity_reasoning := "Surface-level corrosion detected, monitor for progression"
               bounding_box := ⟨0, 0, 100, 100⟩
               explanation := "Surface-level corrosion detected with minimal material loss. Early-stage oxidation present, primarily affecting protective coating or superficial material layers. Structural integrity currently maintained."
               recommended_action := "Clean affected area and apply corrosion inhibitor. Restore protective coating system. Address moisture source if identified. Include in routine inspection schedule." }]
          total_defects := 1
          summary := "Inspection completed. 1 defect detected. Types: 1 Corrosion. Severity: 1 Low." }) :=
  inspect_image_total_defects_eq_length simpleProvider sampleImage [sampleCorrosion] _
    (by with_unfolding_all decide)

/-- Helper: a string with a non-empty right append component is non-empty. -/
theorem append_ne_empty_of_right (a b : String) (hb : b ≠ "") : a ++ b ≠ "" := by
  intro h
  apply hb
  have hlen := congrArg String.length h
  rw [String.length_append, String.length_empty] at hlen
  have hb0 : b.data.length = 0 := by
    have hl : b.length = 0 := by omega
    exact hl
  have hdata : b.data = [] := List.length_eq_zero.mp hb0
  exact String.ext (by rw [hdata])

/-- C10: generate_simple_explanation is total and pure: for every
(defect_type, severity) string pair — matched by the built-in table or not —
it returns non-empty explanation and recommended_action strings, and on every
pair whose lower-cased type is not a table key it returns exactly the generic
fallback texts.  It reads no instance state (the embedding takes no self),
which is why the service can call it on a VisionLanguageModel allocated via
__new__ without __init__ when use_vlm is false. -/
theorem generate_simple_explanation_total (defect_type severity : String) :
    (generate_simple_explanation defect_type severity).explanation ≠ "" ∧
    (generate_simple_explanation defect_type severity).recommended_action ≠ "" ∧
    (pyLower defect_type ≠ "crack" → pyLower defect_type ≠ "corrosion" →
      pyLower defect_type ≠ "spalling" →
      generate_simple_explanation defect_type severity =
        { explanation := severity ++ " severity " ++ defect_type ++
            " detected requiring engineering assessment."
          recommended_action :=
            "Consult with licensed structural engineer for evaluation and repair recommendations." }) := by
  refine ⟨?_, ?_, ?_⟩
  · simp only [generate_simple_explanation]
    repeat' split
    all_goals first
      | decide
      | exact append_ne_empty_of_right _ _ (by decide)
  · simp only [generate_simple_explanation]
    repeat' split
    all_goals first
      | decide
      | exact (by decide :
          ("Consult with licensed structural engineer for evaluation and repair recommendations." : String) ≠ "")
  · intro h1 h2 h3
    simp only [generate_simple_explanation]
    rw [if_neg h1, if_neg h2, if_neg h3]

/-- C10 witness: the totality theorem applied to a pair absent from the
table (unknown type and unknown severity). -/
theorem generate_simple_explanation_total_witness :
    (generate_simple_explanation "rust_stain" "Critical").explanation ≠ "" ∧
    (generate_simple_explanation "rust_stain" "Critical").recommended_action ≠ "" ∧
    generate_simple_explanation "rust_stain" "Critical" =
      { explanation := "Critical" ++ " severity " ++ "rust_stain" ++
          " detected requiring engineering assessment."
        recommended_action :=
          "Consult with licensed structural engineer for evaluation and repair recommendations." } := by
  have h := generate_simple_explanation_total "rust_stain" "Critical"
  exact ⟨h.1, h.2.1,
    h.2.2 (by with_unfolding_all decide) (by with_unfolding_all decide)
      (by with_unfolding_all decide)⟩


/-- The per-type counting structure the spec asks for, written from the
spec: the distinct (capitalized) defect-type names in order of first
occurrence, the accumulator holding the names already seen. -/
def firstOccAux : List String → List String → List String
  | _, [] => []
  | seen, x :: xs =>
      if x ∈ seen then firstOccAux seen xs
      else x :: firstOccAux (x :: seen) xs

/-- The summary contract of spec section 4.3, written from the spec's words:
a total-count sentence (pluralized), per-defect-type counts (pluralized when
the count exceeds 1), severity counts in the fixed order High, Medium, Low
with zero-count tiers omitted, and the urgency clause exactly when the
High-severity count is positive, all joined into one string. -/
def summary_spec (ds : List DefectDetection) : String :=
  let total := ds.length
  let names := ds.map (fun d => pyCapitalize d.defect_type)
  let typeEntries := (firstOccAux [] names).map
    (fun t => toString (names.count t) ++ " " ++ t ++ (if names.count t > 1 then "s" else ""))
  let nHigh := ds.countP (fun d => decide (d.severity = SeverityLevel.High))
  let nMedium := ds.countP (fun d => decide (d.severity = SeverityLevel.Medium))
  let nLow := ds.countP (fun d => decide (d.severity = SeverityLevel.Low))
  let sevEntries :=
    ([(nHigh, "High"), (nMedium, "Medium"), (nLow, "Low")].filter
        (fun p => decide (0 < p.1))).map
      (fun p => toString p.1 ++ " " ++ p.2)
  String.intercalate " "
    (["Inspection completed. " ++ toString total ++ " defect" ++
        (if total > 1 then "s" else "") ++ " detected.",
      "Types: " ++ String.intercalate ", " typeEntries ++ "."] ++
     (if sevEntries.isEmpty then []
       else ["Severity: " ++ String.intercalate ", " sevEntries ++ "."]) ++
     (if 0 < nHigh
       then ["Immediate engineering assessment recommended for high severity defects."]
       else []))

/-- The severity tally loop counts occurrences of each severity level. -/
theorem foldl_tallySeverity_eq (ds : List DefectDetection) (c : SevCounts) :
    ds.foldl (fun counts d => tallySeverity counts d.severity) c =
      ⟨c.high + ds.countP (fun d => decide (d.severity = SeverityLevel.High)),
       c.medium + ds.countP (fun d => decide (d.severity = SeverityLevel.Medium)),
       c.low + ds.countP (fun d => decide (d.severity = SeverityLevel.Low))⟩ := by
  induction ds generalizing c with
  | nil => simp
  | cons d rest ih =>
    rw [List.foldl_cons, ih]
    cases hs : d.severity <;>
      simp [tallySeverity, List.countP_cons, hs, SevCounts.mk.injEq] <;> omega

/-- Every element produced by firstOccAux is new: it is not in the seen
accumulator it was produced under. -/
theorem mem_firstOccAux_not_mem_seen :
    ∀ (l seen : List String) (t : String), t ∈ firstOccAux seen l → t ∉ seen := by
  intro l
  induction l with
  | nil => intro seen t ht; simp [firstOccAux] at ht
  | cons x xs ih =>
    intro seen t ht
    by_cases hx : x ∈ seen
    · rw [firstOccAux, if_pos hx] at ht
      exact ih seen t ht
    · rw [firstOccAux, if_neg hx] at ht
      rcases List.mem_cons.mp ht with rfl | hmem
      · exact hx
      · intro hc
        exact ih (x :: seen) t hmem (List.mem_cons_of_mem x hc)

/-- firstOccAux only depends on the membership of the seen accumulator. -/
theorem firstOccAux_congr :
    ∀ (l s1 s2 : List String), (∀ a, a ∈ s1 ↔ a ∈ s2) →
      firstOccAux s1 l = firstOccAux s2 l := by
  intro l
  induction l with
  | nil => intro s1 s2 _; rfl
  | cons x xs ih =>
    intro s1 s2 h
    by_cases hx : x ∈ s1
    · rw [firstOccAux, firstOccAux, if_pos hx, if_pos ((h x).mp hx)]
      exact ih s1 s2 h
    · rw [firstOccAux, firstOccAux, if_neg hx, if_neg (fun hc => hx ((h x).mpr hc))]
      exact congrArg (List.cons x) (ih (x :: s1) (x :: s2) (by intro a; simp [h a]))

/-- Bumping an absent key appends it with count 1 (Python dicts preserve
insertion order). -/
theorem bumpCount_not_mem :
    ∀ (acc : List (String × ℕ)) (x : String), x ∉ acc.map Prod.fst →
      bumpCount acc x = acc ++ [(x, 1)] := by
  intro acc x
  induction acc with
  | nil => intro _; rfl
  | cons p rest ih =>
    intro hx
    obtain ⟨k, n⟩ := p
    simp only [List.map_cons, List.mem_cons, not_or] at hx
    rw [bumpCount, if_neg (fun hc => hx.1 hc.symm), ih hx.2]
    rfl

/-- Bumping a present key leaves the key sequence unchanged. -/
theorem bumpCount_map_fst :
    ∀ (acc : List (String × ℕ)) (x : String), x ∈ acc.map Prod.fst →
      (bumpCount acc x).map Prod.fst = acc.map Prod.fst := by
  intro acc x
  induction acc with
  | nil => intro hx; simp at hx
  | cons p rest ih =>
    intro hx
    obtain ⟨k, n⟩ := p
    by_cases hk : k = x
    · rw [bumpCount, if_pos hk]
      simp
    · have hx' : x ∈ rest.map Prod.fst := by
        simp only [List.map_cons, List.mem_cons] at hx
        rcases hx with h | h
        · exact absurd h.symm hk
        · exact h
      rw [bumpCount, if_neg hk]
      simp only [List.map_cons, ih hx']

/-- Bumping a present key (keys distinct) is the same as counting one more
occurrence of that key. -/
theorem bumpCount_map_add_count (xs : List String) :
    ∀ (acc : List (String × ℕ)) (x : String),
      (acc.map Prod.fst).Nodup → x ∈ acc.map Prod.fst →
      (bumpCount acc x).map (fun p => (p.1, p.2 + xs.count p.1)) =
        acc.map (fun p => (p.1, p.2 + (x :: xs).count p.1)) := by
  intro acc
  induction acc with
  | nil => intro x _ hx; simp at hx
  | cons p rest ih =>
    intro x hnd hx
    obtain ⟨k, n⟩ := p
    simp only [List.map_cons, List.nodup_cons] at hnd
    by_cases hk : k = x
    · subst hk
      rw [bumpCount, if_pos rfl]
      simp only [List.map_cons]
      congr 1
      · have hc : (k :: xs).count k = xs.count k + 1 := by
          simp [List.count_cons]
        simp [hc]
        omega
      · apply List.map_congr_left
        intro q hq
        have hqk : q.1 ≠ k := by
          intro hqe
          exact hnd.1 (hqe ▸ List.mem_map_of_mem Prod.fst hq)
        have hkq : ¬ k = q.1 := fun hc => hqk hc.symm
        have hcnt : (k :: xs).count q.1 = xs.count q.1 := by
          simp [List.count_cons, hkq]
        rw [hcnt]
    · have hx' : x ∈ rest.map Prod.fst := by
        simp only [List.map_cons, List.mem_cons] at hx
        rcases hx with h | h
        · exact absurd h.symm hk
        · exact h
      rw [bumpCount, if_neg hk]
      simp only [List.map_cons]
      congr 1
      · have hxk : ¬ x = k := fun hc => hk hc.symm
        have hcnt : (x :: xs).count k = xs.count k := by
          simp [List.count_cons, hxk]
        rw [hcnt]
      · exact ih x hnd.2 hx'

/-- The defect-type tally loop is first-occurrence-ordered counting: folding
bumpCount over the names extends the accumulator entries by their counts and
appends the unseen names, in first-occurrence order, with their counts. -/
theorem foldl_bumpCount_eq :
    ∀ (names : List String) (acc : List (String × ℕ)), (acc.map Prod.fst).Nodup →
      names.foldl bumpCount acc =
        acc.map (fun p => (p.1, p.2 + names.count p.1)) ++
          (firstOccAux (acc.map Prod.fst) names).map (fun t => (t, names.count t)) := by
  intro names
  induction names with
  | nil =>
    intro acc _
    simp [firstOccAux]
  | cons x xs ih =>
    intro acc hnd
    rw [List.foldl_cons]
    by_cases hx : x ∈ acc.map Prod.fst
    · have hnd' : ((bumpCount acc x).map Prod.fst).Nodup := by
        rw [bumpCount_map_fst acc x hx]; exact hnd
      rw [ih (bumpCount acc x) hnd', bumpCount_map_fst acc x hx,
        bumpCount_map_add_count xs acc x hnd hx]
      rw [firstOccAux, if_pos hx]
      congr 1
      apply List.map_congr_left
      intro t ht
      have htx : t ≠ x := by
        intro hte
        exact mem_firstOccAux_not_mem_seen xs (acc.map Prod.fst) t ht (hte ▸ hx)
      have hxt : ¬ x = t := fun hc => htx hc.symm
      have hcnt : (x :: xs).count t = xs.count t := by
        simp [List.count_cons, hxt]
      rw [hcnt]
    · rw [bumpCount_not_mem acc x hx]
      have hnd' : (((acc ++ [(x, 1)]).map Prod.fst)).Nodup := by
        simp only [List.map_append, List.map_cons, List.map_nil]
        rw [List.nodup_append]
        refine ⟨hnd, List.nodup_singleton x, ?_⟩
        intro a ha hax
        rw [List.mem_singleton] at hax
        exact hx (hax ▸ ha)
      rw [ih (acc ++ [(x, 1)]) hnd']
      rw [firstOccAux, if_neg hx]
      simp only [List.map_append, List.map_cons, List.map_nil]
      rw [List.append_assoc]
      congr 1
      · apply List.map_congr_left
        intro q hq
        have hqx : q.1 ≠ x := by
          intro hqe
          exact hx (hqe ▸ List.mem_map_of_mem Prod.fst hq)
        have hxq : ¬ x = q.1 := fun hc => hqx hc.symm
        have hcnt : (x :: xs).count q.1 = xs.count q.1 := by
          simp [List.count_cons, hxq]
        rw [hcnt]
      · have hseen : firstOccAux (acc.map Prod.fst ++ [x]) xs =
            firstOccAux (x :: acc.map Prod.fst) xs := by
          apply firstOccAux_congr
          intro a
          simp [or_comm]
        rw [hseen]
        simp only [List.singleton_append, List.map_cons]
        congr 1
        · have hc : (x :: xs).count x = xs.count x + 1 := by
            simp [List.count_cons]
          simp [hc]
          omega
        · apply List.map_congr_left
          intro t ht
          have htx : t ≠ x := by
            intro hte
            subst hte
            exact mem_firstOccAux_not_mem_seen xs (t :: acc.map Prod.fst) t ht
              (List.mem_cons_self t _)
          have hxt2 : ¬ x = t := fun hc => htx hc.symm
          have hcnt : (x :: xs).count t = xs.count t := by
            simp [List.count_cons, hxt2]
          rw [hcnt]

/-- C8: for every non-empty assessment list the generated summary is exactly
the spec contract. -/
theorem generate_summary_matches_spec (ds : List DefectDetection) (h : ds ≠ []) :
    _generate_summary ds = summary_spec ds := by
  have htot : ¬ ds.length = 0 := fun hc => h (List.length_eq_zero.mp hc)
  simp only [_generate_summary, summary_spec]
  rw [if_neg htot]
  rw [foldl_tallySeverity_eq]
  rw [← List.foldl_map (fun d : DefectDetection => pyCapitalize d.defect_type) bumpCount ds []]
  rw [foldl_bumpCount_eq (ds.map fun d => pyCapitalize d.defect_type) [] (by simp)]
  simp only [List.map_nil, List.nil_append, List.map_map, Function.comp_def, Nat.zero_add]
  by_cases h1 : 0 < ds.countP (fun d => decide (d.severity = SeverityLevel.High)) <;>
    by_cases h2 : 0 < ds.countP (fun d => decide (d.severity = SeverityLevel.Medium)) <;>
      by_cases h3 : 0 < ds.countP (fun d => decide (d.severity = SeverityLevel.Low)) <;>
        simp [h1, h2, h3, List.filter, Function.comp_def]

/-- A three-assessment list matching the spec example: one High crack and
two Low corrosions. -/
def exampleAssessments : List DefectDetection :=
  [⟨"crack", 0.9, SeverityLevel.High, "r1", ⟨0, 0, 10, 10⟩, "e1", "a1"⟩,
   ⟨"corrosion", 0.8, SeverityLevel.Low, "r2", ⟨0, 0, 5, 5⟩, "e2", "a2"⟩,
   ⟨"corrosion", 0.7, SeverityLevel.Low, "r3", ⟨0, 0, 6, 6⟩, "e3", "a3"⟩]

/-- C8 witness: the summary theorem applied to the spec's example list
(one High and two Low severities, two defect types). -/
theorem generate_summary_matches_spec_witness :
    _generate_summary exampleAssessments = summary_spec exampleAssessments :=
  generate_summary_matches_spec exampleAssessments (by simp [exampleAssessments])

end Inspection
